import Mathlib

/-!
Verification of the mtdoor message-command bot core: the dispatch engine
(`DoorManager.on_text`, `DoorManager.get_command_handler`,
`DoorManager.add_command` from `door/manager.py`), the telemetry
plausibility filter (`DoorManager.on_packet`), the haversine great-circle
distance, and the HTTP persistence sink (`server.py`, `database_setup.py`).

Python strings are modelled as lists of characters (`PyStr`); Python
numeric values occurring in the filter logic are modelled as rationals;
the real-valued haversine formula is modelled over `ℝ`.  Python functions
that can raise an unhandled exception are modelled with `Option` results
(`none` = unhandled exception).
-/

/-- Model of a Python `str`: a list of characters. -/
abbrev PyStr := List Char

/-- Model of Python `str.lower()` (the repository only lowercases ASCII command
words and messages). -/
def pyLower (s : PyStr) : PyStr := s.map Char.toLower

/-- Model of Python `str.split()` with no arguments: split on runs of
whitespace, discarding empty fragments. -/
def pySplit (s : PyStr) : List PyStr :=
  (List.splitOnP (fun c => c.isWhitespace) s).filter (fun w => w ≠ [])

/-- Value stored in `BaseCommand.session` for a node: Python `False` or a
string naming the owning command (`base_command.py` line 55, `echo.py`). -/
inductive SessVal where
  | pyFalse : SessVal
  | pyString : PyStr → SessVal
deriving DecidableEq

/-- The `BaseCommand.session` dict (node id → session value).  It is a class
attribute on `BaseCommand`, hence one shared mapping. -/
abbrev Session := List (PyStr × SessVal)

/-- Model of Python dict assignment `session[node] = v`. -/
def sessionSet : Session → PyStr → SessVal → Session
  | [], node, v => [(node, v)]
  | (k, w) :: rest, node, v =>
    if k = node then (k, v) :: rest else (k, w) :: sessionSet rest node v

/-- Model of `BaseCommand.continue_session`: `self.session.get(node, False)`
(`base_command.py` lines 57-59). -/
def continue_session (session : Session) (node : PyStr) : SessVal :=
  (session.lookup node).getD SessVal.pyFalse

/-- Outcome of a command's `invoke`: a returned optional response string, or a
raised `CommandRunError` (the only exception `on_text` catches). -/
inductive InvokeOutcome where
  | ok : Option PyStr → InvokeOutcome
  | runError : InvokeOutcome

/-- Outcome of a command's `load` hook, as distinguished by the
`try/except` chain in `DoorManager.add_command` (`manager.py` lines 70-81). -/
inductive LoadOutcome where
  | loadOk : LoadOutcome
  | notImplemented : LoadOutcome
  | loadFailed : LoadOutcome
  | otherFailure : LoadOutcome
deriving DecidableEq

/-- A command descriptor: the observable interface of a `BaseCommand`
subclass as consumed by `DoorManager`.  `invoke` receives the raw message and
the sender node and may read/write the shared session mapping;
`loadBehavior` is the outcome of its `load` hook. -/
structure Command where
  command : PyStr
  description : Option PyStr
  help : Option PyStr
  loadBehavior : LoadOutcome
  invoke : PyStr → PyStr → Session → InvokeOutcome × Session

/-- Model of `DoorManager.get_command_handler` (`manager.py` lines 102-108):
first registered command whose word is a literal prefix of the message, by
the slicing test `message[: len(cmd.command)] == cmd.command` guarded by
`len(message) >= len(cmd.command)`. -/
def get_command_handler : List Command → PyStr → Option Command
  | [], _ => none
  | cmd :: rest, message =>
    if cmd.command.length ≤ message.length ∧
        message.take cmd.command.length = cmd.command then
      some cmd
    else
      get_command_handler rest message

/-- Model of `DoorManager.help_message` (`manager.py` lines 120-122). -/
def help_message (cmds : List Command) : PyStr :=
  "Hi, I am a bot.\n\nTry one of these commands: ".data ++
    List.intercalate ", ".data (cmds.map (fun c => c.command)) ++
    " or 'help <command>'.".data

/-- Model of `DoorManager.help_command` (`manager.py` lines 124-137). -/
def help_command (c : Command) : PyStr :=
  match c.description, c.help with
  | some d, some h => d ++ "\n\n".data ++ h
  | some d, none => d
  | none, some h => h
  | none, none => "No help for this command".data

/-- The ping reply built at `manager.py` line 155. -/
def ping_message (node : PyStr) (hops : Int) (snr rssi : ℚ) : PyStr :=
  "Received ping from node ".data ++ node ++
    "\nHops: ".data ++ (toString hops).data ++
    "\nSNR: ".data ++ (toString snr).data ++
    "\nRSSI: ".data ++ (toString rssi).data

/-- The fields of a text packet that `DoorManager.on_text` indexes
unconditionally (`manager.py` lines 141-148). -/
structure TextPacket where
  toId : PyStr
  fromId : PyStr
  rxSnr : ℚ
  rxRssi : ℚ
  hopStart : Int
  hopLimit : Int
  payload : PyStr

/-- Model of `DoorManager.on_text` (`manager.py` lines 139-182).  The result
is the shared session mapping after the event together with the list of
`(message, node)` pairs published on the response topic during the event. -/
def on_text (cmds : List Command) (me : PyStr) (packet : TextPacket)
    (session : Session) : Session × List (PyStr × PyStr) :=
  if packet.toId ≠ me then (session, [])
  else
    let node := packet.fromId
    let hops := packet.hopStart - packet.hopLimit
    let msg := packet.payload
    if (pyLower msg).take 4 = "ping".data then
      (session, [(ping_message node hops packet.rxSnr packet.rxRssi, node)])
    else
      -- `help ` branch: when the named command is unknown, control falls
      -- through to normal routing (no early return at line 160-166).
      let helpHandler : Option Command :=
        if (pyLower msg).take 5 = "help ".data then
          get_command_handler cmds (pyLower (msg.drop 5))
        else none
      match helpHandler with
      | some h => (session, [(help_command h, node)])
      | none =>
        match get_command_handler cmds (pyLower msg) with
        | some handler =>
          let (out, session') := handler.invoke msg node session
          let response : Option PyStr :=
            match out with
            | InvokeOutcome.ok r => r
            | InvokeOutcome.runError =>
              some ("Command to '".data ++ handler.command ++ "' failed.".data)
          -- `if response:` — Python also treats an empty returned string
          -- as no reply
          match response with
          | some r => if r = [] then (session', []) else (session', [(r, node)])
          | none => (session', [])
        | none => (session, [(help_message cmds, node)])

/-- Model of `Echo.invoke` (`commands/echo.py` lines 9-19). -/
def echoInvoke (msg node : PyStr) (s : Session) : InvokeOutcome × Session :=
  let w := pySplit (pyLower msg)
  if w.head? = some "exit".data then
    (InvokeOutcome.ok (some "Goodbye".data), sessionSet s node SessVal.pyFalse)
  else
    let s' := sessionSet s node (SessVal.pyString "Echo".data)
    let r := if w.head? = some "echo".data then msg.drop 5 else msg
    (InvokeOutcome.ok (some (r ++ "\n\nEnter some more text, or 'exit' to quit".data)), s')

/-- The `Echo` command descriptor (`commands/echo.py` lines 4-7). -/
def echoCommand : Command where
  command := "echo".data
  description := some "'echo' repeats your message back to you".data
  help := some "'echo <repeat this message>', or 'exit'".data
  loadBehavior := LoadOutcome.notImplemented
  invoke := echoInvoke

/-- The exception raised out of `DoorManager.add_command` (a
`CommandLoadError`), when one is raised at all. -/
inductive AddError where
  | noCommandAttr : AddError
  | duplicate : AddError
deriving DecidableEq

/-- Model of `DoorManager.add_command` (`manager.py` lines 52-96): duplicate
command words raise `CommandLoadError` before anything is appended; a failing
`load` hook is logged and the command skipped without an exception; otherwise
the command is appended at the end of the registry. -/
def add_command (commands : List Command) (c : Command) :
    List Command × Option AddError :=
  if commands.any (fun k => k.command == c.command) then
    (commands, some AddError.duplicate)
  else
    match c.loadBehavior with
    | LoadOutcome.loadOk => (commands ++ [c], none)
    | LoadOutcome.notImplemented => (commands ++ [c], none)
    | LoadOutcome.loadFailed => (commands, none)
    | LoadOutcome.otherFailure => (commands, none)

/-- A position dictionary carrying latitude and longitude, as read by
`on_packet` from a packet's `decoded.position` or from the node cache. -/
structure Position where
  latitude : ℚ
  longitude : ℚ
deriving DecidableEq

/-- The parts of a cached `interface.nodes` entry that `on_packet` reads:
optional position, optional `deviceMetrics.hopsAway`, optional
`user.longName`. -/
structure NodeInfo where
  position : Option Position
  hopsAway : Option Int
  longName : Option PyStr
deriving DecidableEq

/-- The fields of a generic inbound packet read by `on_packet`. -/
structure Packet where
  fromId : PyStr
  position : Option Position
  hopStart : Option Int
  hopLimit : Option Int
  rxSnr : Option ℚ
  rxRssi : Option ℚ
  rxTime : Option Int

/-- The data dict built at `manager.py` lines 277-286 and posted to the
persistence server. -/
structure TelemetryRecord where
  node_id : PyStr
  long_name : PyStr
  latitude : ℚ
  longitude : ℚ
  distance : ℚ
  snr : ℚ
  rssi : ℚ
  timestamp : Option Int
deriving DecidableEq

/-- The `DoorManager` fields consulted by `on_packet`: local node id, ignore
list, the two filter thresholds (`manager.py` lines 35-41) and the node
cache `interface.nodes`. -/
structure Env where
  me : PyStr
  ignoreNodes : List PyStr
  distance_filter : ℚ
  snr_filter : ℚ
  nodes : PyStr → Option NodeInfo

/-- Steps 2-3 of `on_packet` (`manager.py` lines 204-218): position from the
packet if present, else from the cached node entry, else none. -/
def resolvePosition (node_info : Option NodeInfo) (packetPos : Option Position) :
    Option Position :=
  match packetPos with
  | some p => some p
  | none =>
    match node_info with
    | some n => n.position
    | none => none

/-- Step 4 of `on_packet` (`manager.py` lines 220-231): cached
`deviceMetrics.hopsAway` if available, else `hopStart - hopLimit` when both
are present, else `hopLimit` alone when present, else 0. -/
def deriveHopCount (cached hopStart hopLimit : Option Int) : Int :=
  match cached with
  | some h => h
  | none =>
    match hopStart, hopLimit with
    | some s, some l => s - l
    | none, some l => l
    | _, none => 0

/-- The `longName` fallback of `manager.py` line 267. -/
def longNameOf : Option NodeInfo → PyStr
  | some n => n.longName.getD "Unknown".data
  | none => "Unknown".data

/-- Model of `DoorManager.on_packet` (`manager.py` lines 193-300).  The
result is the telemetry record built at step 10 (`none` when the packet is
discarded by one of the gates); step 11 posts exactly this record to the
persistence server when a server URL is configured.  The great-circle
distance computation (a call to `haversine` on Python floats) is passed in
as the parameter `dist`. -/
def on_packet (dist : ℚ → ℚ → ℚ → ℚ → ℚ) (env : Env) (p : Packet) :
    Option TelemetryRecord :=
  -- Step 1: local node and ignore list
  if p.fromId = env.me ∨ p.fromId ∈ env.ignoreNodes then none
  else
    let node_info := env.nodes p.fromId
    -- Steps 2-3: position resolution
    match resolvePosition node_info p.position with
    | none => none
    | some pos =>
      -- Step 4: hop count derivation
      let hop_count := deriveHopCount (node_info.bind NodeInfo.hopsAway)
        p.hopStart p.hopLimit
      -- Step 5: only 0-hop packets
      if hop_count ≠ 0 then none
      else
        -- Step 6: SNR and RSSI must both be present
        match p.rxSnr, p.rxRssi with
        | some snr, some rssi =>
          match env.nodes env.me with
          | none => none
          | some my_node =>
            match my_node.position with
            | none => none
            | some mypos =>
              -- Step 7: distance to the sender
              let distance := dist mypos.latitude mypos.longitude
                pos.latitude pos.longitude
              -- Step 8: far-and-strong implausibility gate
              if distance > env.distance_filter ∧ snr > env.snr_filter then none
              else
                -- Step 10: the record that step 11 posts
                some { node_id := p.fromId
                       long_name := longNameOf node_info
                       latitude := pos.latitude
                       longitude := pos.longitude
                       distance := distance
                       snr := snr
                       rssi := rssi
                       timestamp := p.rxTime }
        | _, _ => none

/-- Model of Python `math.atan2` on real arguments. -/
noncomputable def atan2 (y x : ℝ) : ℝ :=
  if 0 < x then Real.arctan (y / x)
  else if x < 0 ∧ 0 ≤ y then Real.arctan (y / x) + Real.pi
  else if x < 0 ∧ y < 0 then Real.arctan (y / x) - Real.pi
  else if x = 0 ∧ 0 < y then Real.pi / 2
  else if x = 0 ∧ y < 0 then -(Real.pi / 2)
  else 0

/-- Model of Python `math.radians`. -/
noncomputable def radians (d : ℝ) : ℝ := d * Real.pi / 180

/-- The intermediate `a` of `haversine` (`manager.py` line 24). -/
noncomputable def hav_a (lat1 lon1 lat2 lon2 : ℝ) : ℝ :=
  Real.sin (radians (lat2 - lat1) / 2) ^ 2 +
    Real.cos (radians lat1) * Real.cos (radians lat2) *
      Real.sin (radians (lon2 - lon1) / 2) ^ 2

/-- The intermediate `c` of `haversine` (`manager.py` line 25). -/
noncomputable def hav_c (lat1 lon1 lat2 lon2 : ℝ) : ℝ :=
  2 * atan2 (Real.sqrt (hav_a lat1 lon1 lat2 lon2))
    (Real.sqrt (1 - hav_a lat1 lon1 lat2 lon2))

/-- Model of `haversine` (`manager.py` lines 17-26): great-circle distance in
miles with mean Earth radius `R = 3958.8`. -/
noncomputable def haversine (lat1 lon1 lat2 lon2 : ℝ) : ℝ :=
  3958.8 * hav_c lat1 lon1 lat2 lon2

/-- A JSON value, for the HTTP sink's request body. -/
inductive Json where
  | null : Json
  | jsonBool : Bool → Json
  | jsonNum : ℚ → Json
  | jsonStr : PyStr → Json
  | jsonArr : List Json → Json
  | jsonObj : List (PyStr × Json) → Json

/-- Python truthiness test `not data` on a JSON value. -/
def Json.falsy : Json → Bool
  | Json.null => true
  | Json.jsonBool b => !b
  | Json.jsonNum q => q == 0
  | Json.jsonStr s => s.isEmpty
  | Json.jsonArr xs => xs.isEmpty
  | Json.jsonObj kvs => kvs.isEmpty

/-- The parts of a Flask request read by `receive_packet_data`: the
`Authorization` header (absent models both a missing header and Python
`None`) and `request.json` (`none` when the request carried no JSON body). -/
structure HttpRequest where
  authorization : Option PyStr
  body : Option Json

/-- JSON error body `{"error": msg}` as returned by `server.py`. -/
def jsonError (msg : PyStr) : Json := Json.jsonObj [("error".data, Json.jsonStr msg)]

/-- JSON success body `{"status": "success", "received": data}`. -/
def jsonSuccess (data : Json) : Json :=
  Json.jsonObj [("status".data, Json.jsonStr "success".data),
    ("received".data, data)]

/-- Model of `receive_packet_data` (`server.py` lines 55-64).  The result is
`some (status, body)`; `none` models an unhandled exception escaping the
handler (Flask then answers 500): `auth_header.split()[1]` raises
`IndexError` whenever a non-empty `Authorization` header has fewer than two
whitespace-separated words. -/
def receive_packet_data (authToken : PyStr) (req : HttpRequest) :
    Option (Nat × Json) :=
  match req.authorization with
  | none => some (401, jsonError "Unauthorized".data)
  | some h =>
    if h = [] then some (401, jsonError "Unauthorized".data)
    else
      match (pySplit h)[1]? with
      | none => none
      | some tok =>
        if tok ≠ authToken then some (401, jsonError "Unauthorized".data)
        else
          match req.body with
          | none => some (400, jsonError "No data received".data)
          | some data =>
            if data.falsy then some (400, jsonError "No data received".data)
            else some (200, jsonSuccess data)

/-- Columns of the `packets` table created by `store_packet` in `server.py`
(lines 26-36). -/
def serverTableColumns : List String :=
  ["node_id", "long_name", "latitude", "longitude", "snr", "rssi", "timestamp"]

/-- Columns of the `packets` table created by `database_setup.py`
(lines 9-21). -/
def setupTableColumns : List String :=
  ["id", "node_id", "long_name", "latitude", "longitude", "snr", "rssi",
    "timestamp", "distance"]

/-- A row of the `packets` table written by `store_packet` (`server.py`):
the posted payload's identifying and signal fields plus a server-side
`CURRENT_TIMESTAMP`; the payload's `distance` and `timestamp` fields are not
bound by the `INSERT`. -/
structure PacketsRow where
  node_id : PyStr
  long_name : PyStr
  latitude : ℚ
  longitude : ℚ
  snr : ℚ
  rssi : ℚ
  timestamp : Int
deriving DecidableEq

/-- The row written for payload `d` at server time `now` by the `INSERT`
statement of `store_packet` (`server.py` lines 39-49). -/
def packetRow (now : Int) (d : TelemetryRecord) : PacketsRow :=
  { node_id := d.node_id
    long_name := d.long_name
    latitude := d.latitude
    longitude := d.longitude
    snr := d.snr
    rssi := d.rssi
    timestamp := now }

/-- Model of `store_packet` (`server.py` lines 21-52): an UPSERT keyed on
`node_id` — the row for the payload's node is updated in place when one
exists, otherwise appended. -/
def store_packet (now : Int) (d : TelemetryRecord) (table : List PacketsRow) :
    List PacketsRow :=
  if table.any (fun r => r.node_id == d.node_id) then
    table.map (fun r => if r.node_id == d.node_id then packetRow now d else r)
  else
    table ++ [packetRow now d]

/-- The slicing test used by `get_command_handler` is exactly the literal
list-prefix relation. -/
lemma sliceTest_iff (w t : PyStr) :
    (w.length ≤ t.length ∧ t.take w.length = w) ↔ w <+: t := by
  constructor
  · rintro ⟨-, h⟩
    exact h ▸ List.take_prefix w.length t
  · intro h
    exact ⟨h.length_le, (List.prefix_iff_eq_take.mp h).symm⟩

/-- C3: `get_command_handler` returns the first descriptor, in registration
order, whose command word is a literal prefix of the (lowercased) text, and
`none` when no registered word is a prefix; when the text starts with exactly
one registered word it returns that unique descriptor. -/
theorem resolve_first_matching_command :
    (∀ (cmds : List Command) (text : PyStr),
      get_command_handler cmds text =
        cmds.find? (fun c => decide (c.command <+: text))) ∧
    (∀ (cmds : List Command) (text : PyStr),
      (∀ c ∈ cmds, ¬ c.command <+: text) →
      get_command_handler cmds text = none) ∧
    (∀ (cmds : List Command) (text : PyStr) (c : Command),
      c ∈ cmds → c.command <+: text →
      (∀ c' ∈ cmds, c'.command <+: text → c' = c) →
      get_command_handler cmds text = some c) := by
  have hfind : ∀ (cmds : List Command) (text : PyStr),
      get_command_handler cmds text =
        cmds.find? (fun c => decide (c.command <+: text)) := by
    intro cmds text
    induction cmds with
    | nil => rfl
    | cons d rest ih =>
      rw [get_command_handler, List.find?_cons]
      by_cases h : d.command <+: text
      · rw [if_pos ((sliceTest_iff _ _).mpr h)]
        rw [decide_eq_true h]
      · rw [if_neg (fun hc => h ((sliceTest_iff _ _).mp hc))]
        rw [decide_eq_false h]
        exact ih
  refine ⟨hfind, ?_, ?_⟩
  · intro cmds text hnone
    rw [hfind]
    rw [List.find?_eq_none]
    intro c hc
    simpa using hnone c hc
  · intro cmds text c
    induction cmds with
    | nil => intro hc; cases hc
    | cons d rest ih =>
      intro hc hpre huniq
      rw [get_command_handler]
      by_cases hd : d.command.length ≤ text.length ∧
          text.take d.command.length = d.command
      · rw [if_pos hd]
        rw [huniq d (List.mem_cons_self d rest) ((sliceTest_iff _ _).mp hd)]
      · rw [if_neg hd]
        have hcr : c ∈ rest := by
          rcases List.mem_cons.mp hc with h | h
          · exact absurd ((sliceTest_iff _ _).mpr (h ▸ hpre)) hd
          · exact h
        exact ih hcr hpre (fun c' hc' => huniq c' (List.mem_cons_of_mem d hc'))

/-- Witness for C3: with only `echo` registered, the text `echo hi` starts
with exactly one registered word and resolves to the `echo` descriptor. -/
theorem resolve_first_matching_command_witness :
    get_command_handler [echoCommand] "echo hi".data = some echoCommand :=
  resolve_first_matching_command.2.2 [echoCommand] "echo hi".data echoCommand
    (List.mem_singleton.mpr rfl) (by decide)
    (fun c' hc' _ => List.mem_singleton.mp hc')

/-- C10: a text packet whose recipient is not the local node is dropped at
the first line of `on_text`: no reply is published and the session state is
untouched. -/
theorem on_text_ignores_other_recipients (cmds : List Command) (me : PyStr)
    (packet : TextPacket) (session : Session) (h : packet.toId ≠ me) :
    on_text cmds me packet session = (session, []) := by
  rw [on_text, if_pos h]

/-- Witness for C10 at a concrete packet addressed to a third node. -/
theorem on_text_ignores_other_recipients_witness :
    on_text [echoCommand] "!me".data
      { toId := "!b".data, fromId := "!a".data, rxSnr := 5, rxRssi := -80,
        hopStart := 3, hopLimit := 3, payload := "echo hi".data }
      [] = ([], []) :=
  on_text_ignores_other_recipients [echoCommand] "!me".data _ [] (by decide)

/-- C6: registering a command whose word is already registered raises
`CommandLoadError` and leaves the registry unchanged: the first registration
is retained and the duplicate is not appended. -/
theorem add_command_rejects_duplicate (commands : List Command) (c : Command)
    (h : ∃ k ∈ commands, k.command = c.command) :
    add_command commands c = (commands, some AddError.duplicate) := by
  rw [add_command, if_pos]
  rw [List.any_eq_true]
  obtain ⟨k, hk, he⟩ := h
  exact ⟨k, hk, by simp [he]⟩

/-- Witness for C6: re-registering `echo` fails and keeps the registry as it
was. -/
theorem add_command_rejects_duplicate_witness :
    add_command [echoCommand] echoCommand =
      ([echoCommand], some AddError.duplicate) :=
  add_command_rejects_duplicate [echoCommand] echoCommand
    ⟨echoCommand, List.mem_singleton.mpr rfl, rfl⟩

/-- C5: the derived hop count prefers the cached hop-count field, then
`hopStart - hopLimit` when both packet fields are present, then `hopLimit`
alone, and defaults to 0. -/
theorem hop_count_preference_order :
    (∀ (h : Int) (s l : Option Int), deriveHopCount (some h) s l = h) ∧
    (∀ s l : Int, deriveHopCount none (some s) (some l) = s - l) ∧
    (∀ l : Int, deriveHopCount none none (some l) = l) ∧
    (∀ s : Option Int, deriveHopCount none s none = 0) := by
  refine ⟨fun _ _ _ => rfl, fun _ _ => rfl, fun _ => rfl, fun s => ?_⟩
  cases s <;> rfl

/-- Cached entry for the local node in the concrete telemetry scenarios. -/
def myNode0 : NodeInfo :=
  { position := some { latitude := 30, longitude := -97 },
    hopsAway := none, longName := none }

/-- Cached entry for the sending node in the concrete telemetry scenarios. -/
def senderNode0 : NodeInfo :=
  { position := none, hopsAway := none, longName := some "Alice".data }

/-- A concrete `DoorManager` environment with the default thresholds
(distance 5 miles, SNR 6 dB). -/
def env0 : Env :=
  { me := "!local".data
    ignoreNodes := []
    distance_filter := 5
    snr_filter := 6
    nodes := fun n =>
      if n = "!local".data then some myNode0
      else if n = "!a1".data then some senderNode0
      else none }

/-- A concrete direct (0-hop) packet with position, 8 dB SNR and RSSI. -/
def packet0 : Packet :=
  { fromId := "!a1".data
    position := some { latitude := 31, longitude := -98 }
    hopStart := some 3
    hopLimit := some 3
    rxSnr := some 8
    rxRssi := some (-80)
    rxTime := some 1700000000 }

/-- The same packet as `packet0` but with derived hop count
`hopStart - hopLimit = 2`. -/
def twoHopPacket : Packet := { packet0 with hopLimit := some 1 }

/-- The telemetry record `on_packet` builds for `packet0` in `env0` when the
computed distance is `d`. -/
def record0 (d : ℚ) : TelemetryRecord :=
  { node_id := "!a1".data
    long_name := "Alice".data
    latitude := 31
    longitude := -98
    distance := d
    snr := 8
    rssi := -80
    timestamp := some 1700000000 }

/-- C2: a telemetry record is built and forwarded only for packets whose
derived hop count is exactly 0; in particular `twoHopPacket` (hop count 2)
is discarded despite valid position and SNR/RSSI data. -/
theorem telemetry_requires_zero_hops :
    (∀ (dist : ℚ → ℚ → ℚ → ℚ → ℚ) (env : Env) (p : Packet)
        (rec : TelemetryRecord),
      on_packet dist env p = some rec →
      deriveHopCount ((env.nodes p.fromId).bind NodeInfo.hopsAway)
        p.hopStart p.hopLimit = 0) ∧
    on_packet (fun _ _ _ _ => 1) env0 twoHopPacket = none := by
  constructor
  · intro dist env p rec h
    simp only [on_packet] at h
    split at h
    · exact Option.noConfusion h
    · split at h
      · exact Option.noConfusion h
      · split at h
        · exact Option.noConfusion h
        · rename_i hne
          exact not_not.mp hne
  · decide

/-- Witness for C2: a concrete forwarded packet indeed has derived hop
count 0. -/
theorem telemetry_requires_zero_hops_witness :
    deriveHopCount ((env0.nodes packet0.fromId).bind NodeInfo.hopsAway)
      packet0.hopStart packet0.hopLimit = 0 :=
  telemetry_requires_zero_hops.1 (fun _ _ _ _ => 2) env0 packet0 (record0 2)
    (by decide)

/-- C4: among packets that reach the distance check, `on_packet` discards
exactly those with distance above the distance threshold and SNR above the
SNR threshold simultaneously; with the default thresholds (5 mi, 6 dB), a
packet at 50 miles and 8 dB SNR is discarded while one at 2 miles and 8 dB
SNR is forwarded. -/
theorem distance_snr_gate :
    (∀ (dist : ℚ → ℚ → ℚ → ℚ → ℚ) (env : Env) (p : Packet)
        (pos mypos : Position) (my_node : NodeInfo) (snr rssi : ℚ),
      ¬(p.fromId = env.me ∨ p.fromId ∈ env.ignoreNodes) →
      resolvePosition (env.nodes p.fromId) p.position = some pos →
      deriveHopCount ((env.nodes p.fromId).bind NodeInfo.hopsAway)
        p.hopStart p.hopLimit = 0 →
      p.rxSnr = some snr → p.rxRssi = some rssi →
      env.nodes env.me = some my_node → my_node.position = some mypos →
      (on_packet dist env p = none ↔
        dist mypos.latitude mypos.longitude pos.latitude pos.longitude >
            env.distance_filter ∧ snr > env.snr_filter)) ∧
    on_packet (fun _ _ _ _ => 50) env0 packet0 = none ∧
    on_packet (fun _ _ _ _ => 2) env0 packet0 = some (record0 2) := by
  refine ⟨?_, by decide, by decide⟩
  intro dist env p pos mypos my_node snr rssi h1 h2 h3 h4 h5 h6 h7
  by_cases hc : dist mypos.latitude mypos.longitude pos.latitude pos.longitude >
      env.distance_filter ∧ snr > env.snr_filter
  · simp [on_packet, h1, h2, h3, h4, h5, h6, h7, hc]
  · simp [on_packet, h1, h2, h3, h4, h5, h6, h7, hc]

/-- Witness for C4: the gate characterization applied to the concrete
50-mile scenario. -/
theorem distance_snr_gate_witness :
    on_packet (fun _ _ _ _ => 50) env0 packet0 = none ↔
      (50 : ℚ) > env0.distance_filter ∧ (8 : ℚ) > env0.snr_filter :=
  distance_snr_gate.1 (fun _ _ _ _ => 50) env0 packet0
    { latitude := 31, longitude := -98 }
    { latitude := 30, longitude := -97 } myNode0 8 (-80)
    (by decide) (by decide) (by decide) (by decide) (by decide)
    (by decide) (by decide)

/-- First message of the C1 scenario: sender `!a` opens an Echo session. -/
def echoOpenPacket : TextPacket :=
  { toId := "!me".data, fromId := "!a".data, rxSnr := 5, rxRssi := -80,
    hopStart := 3, hopLimit := 3, payload := "echo hi".data }

/-- Second message of the C1 scenario: the follow-up `exit` that Echo's own
help text promises to handle inside the session. -/
def echoExitPacket : TextPacket :=
  { toId := "!me".data, fromId := "!a".data, rxSnr := 5, rxRssi := -80,
    hopStart := 3, hopLimit := 3, payload := "exit".data }

/-- C1 (divergence witness): `on_text` maintains no per-sender session state
and never consults `continue_session`.  After `echo hi` Echo records an open
session for `!a` (first conjunct), and Echo's continuation flag for `!a`
reports the session open (third conjunct); yet the next message `exit` is
answered with the global help text, Echo's `invoke` is never reached, and
the session entry is left in place (second conjunct) — contradicting both
the specified state machine and Echo's own documented `exit` flow. -/
theorem session_continuation_never_dispatched :
    on_text [echoCommand] "!me".data echoOpenPacket [] =
      ([("!a".data, SessVal.pyString "Echo".data)],
        [("hi\n\nEnter some more text, or 'exit' to quit".data, "!a".data)]) ∧
    on_text [echoCommand] "!me".data echoExitPacket
        [("!a".data, SessVal.pyString "Echo".data)] =
      ([("!a".data, SessVal.pyString "Echo".data)],
        [(help_message [echoCommand], "!a".data)]) ∧
    continue_session [("!a".data, SessVal.pyString "Echo".data)] "!a".data =
      SessVal.pyString "Echo".data := by
  refine ⟨by decide, by decide, by decide⟩

/-- A POST whose `Authorization` header has a single word: its bearer token
is missing, so the claim expects a 401 response. -/
def malformedAuthRequest : HttpRequest :=
  { authorization := some "Bearer".data
    body := some (Json.jsonObj [("node_id".data, Json.jsonStr "!a1".data)]) }

/-- C7 (counterexample): on `malformedAuthRequest` the handler does not
answer 401 — `auth_header.split()[1]` raises `IndexError` and no response is
produced by the handler at all (Flask turns this into a 500). -/
theorem sink_malformed_auth_not_401 :
    (receive_packet_data "secret".data malformedAuthRequest).map Prod.fst ≠
      some 401 := by
  decide

/-- C7 (amended): the handler answers 401 when the `Authorization` header is
absent, empty, or carries a second whitespace-separated word different from
the configured token; with a correct second word it answers 400 on an absent
or falsy JSON body and 200 with the payload echoed otherwise; and it raises
(no response) when a non-empty header has no second word. -/
theorem sink_response_statuses :
    (∀ (tok : PyStr) (req : HttpRequest), req.authorization = none →
      receive_packet_data tok req = some (401, jsonError "Unauthorized".data)) ∧
    (∀ (tok : PyStr) (req : HttpRequest), req.authorization = some [] →
      receive_packet_data tok req = some (401, jsonError "Unauthorized".data)) ∧
    (∀ (tok : PyStr) (req : HttpRequest) (h t : PyStr),
      req.authorization = some h → (pySplit h)[1]? = some t → t ≠ tok →
      receive_packet_data tok req = some (401, jsonError "Unauthorized".data)) ∧
    (∀ (tok : PyStr) (req : HttpRequest) (h : PyStr),
      req.authorization = some h → (pySplit h)[1]? = some tok →
      req.body = none →
      receive_packet_data tok req =
        some (400, jsonError "No data received".data)) ∧
    (∀ (tok : PyStr) (req : HttpRequest) (h : PyStr) (data : Json),
      req.authorization = some h → (pySplit h)[1]? = some tok →
      req.body = some data → data.falsy = true →
      receive_packet_data tok req =
        some (400, jsonError "No data received".data)) ∧
    (∀ (tok : PyStr) (req : HttpRequest) (h : PyStr) (data : Json),
      req.authorization = some h → (pySplit h)[1]? = some tok →
      req.body = some data → data.falsy = false →
      receive_packet_data tok req = some (200, jsonSuccess data)) ∧
    (∀ (tok : PyStr) (req : HttpRequest) (h : PyStr),
      req.authorization = some h → h ≠ [] → (pySplit h)[1]? = none →
      receive_packet_data tok req = none) := by
  have hne : ∀ (h : PyStr) (t : PyStr), (pySplit h)[1]? = some t → h ≠ [] := by
    intro h t hsplit hemp
    subst hemp
    exact Option.noConfusion hsplit
  refine ⟨?_, ?_, ?_, ?_, ?_, ?_, ?_⟩
  · intro tok req hauth
    simp only [receive_packet_data, hauth]
  · intro tok req hauth
    simp only [receive_packet_data, hauth]
    simp
  · intro tok req h t hauth hsplit ht
    simp only [receive_packet_data, hauth, hsplit, if_neg (hne h t hsplit),
      if_pos ht]
  · intro tok req h hauth hsplit hbody
    simp only [receive_packet_data, hauth, hsplit, hbody,
      if_neg (hne h tok hsplit)]
    simp
  · intro tok req h data hauth hsplit hbody hfalsy
    simp only [receive_packet_data, hauth, hsplit, hbody, hfalsy,
      if_neg (hne h tok hsplit)]
    simp
  · intro tok req h data hauth hsplit hbody hfalsy
    simp only [receive_packet_data, hauth, hsplit, hbody, hfalsy,
      if_neg (hne h tok hsplit)]
    simp
  · intro tok req h hauth hemp hsplit
    simp only [receive_packet_data, hauth, hsplit, if_neg hemp]

/-- Witness for C7: the success path on a concrete authorized request with a
non-empty JSON body. -/
theorem sink_response_statuses_witness :
    receive_packet_data "secret".data
      { authorization := some "Bearer secret".data
        body := some (Json.jsonObj [("node_id".data, Json.jsonStr "!a1".data)]) } =
      some (200, jsonSuccess
        (Json.jsonObj [("node_id".data, Json.jsonStr "!a1".data)])) :=
  sink_response_statuses.2.2.2.2.2.1 "secret".data _ "Bearer secret".data
    (Json.jsonObj [("node_id".data, Json.jsonStr "!a1".data)])
    rfl (by decide) rfl (by decide)

/-- C8 (counterexample): the table written by `store_packet` in `server.py`
has no `distance` column — the posted payload's `distance` is dropped on
persistence. -/
theorem server_table_lacks_distance : "distance" ∉ serverTableColumns := by
  decide

/-- C8 (amended): `store_packet` unconditionally upserts by `node_id` — a
fresh `node_id` appends one row, an existing one rewrites that row in place —
and the persisted columns are `node_id, long_name, latitude, longitude, snr,
rssi, timestamp` without `distance` (which only the separate
`database_setup.py` insert-only schema has); the row's timestamp is the
server-side write time. -/
theorem store_packet_upserts_by_node_id :
    (∀ (now : Int) (d : TelemetryRecord) (table : List PacketsRow),
      (∀ r ∈ table, r.node_id ≠ d.node_id) →
      store_packet now d table = table ++ [packetRow now d]) ∧
    (∀ (now : Int) (d : TelemetryRecord) (table : List PacketsRow)
        (r : PacketsRow),
      r ∈ table → r.node_id = d.node_id →
      packetRow now d ∈ store_packet now d table ∧
        (store_packet now d table).length = table.length) ∧
    (∀ (now : Int) (d : TelemetryRecord), (packetRow now d).timestamp = now) ∧
    "distance" ∉ serverTableColumns ∧ "distance" ∈ setupTableColumns := by
  refine ⟨?_, ?_, fun _ _ => rfl, by decide, by decide⟩
  · intro now d table hfresh
    rw [store_packet, if_neg]
    simp only [List.any_eq_true, beq_iff_eq, not_exists, not_and]
    intro r hr
    exact hfresh r hr
  · intro now d table r hr hrid
    have hcond : table.any (fun q => q.node_id == d.node_id) = true :=
      List.any_eq_true.mpr ⟨r, hr, by simp [hrid]⟩
    rw [store_packet, if_pos hcond]
    constructor
    · exact List.mem_map.mpr ⟨r, hr, by simp [hrid]⟩
    · exact List.length_map table _

/-- Witness for C8: storing a fresh observation appends exactly one row. -/
theorem store_packet_upserts_by_node_id_witness :
    store_packet 1700000001 (record0 2) [] = [packetRow 1700000001 (record0 2)] :=
  store_packet_upserts_by_node_id.1 1700000001 (record0 2) []
    (fun r hr => absurd hr (List.not_mem_nil r))

/-- The haversine intermediate `a` is symmetric in its two coordinate
pairs. -/
lemma hav_a_symm (lat1 lon1 lat2 lon2 : ℝ) :
    hav_a lat1 lon1 lat2 lon2 = hav_a lat2 lon2 lat1 lon1 := by
  unfold hav_a radians
  have h1 : (lat1 - lat2) * Real.pi / 180 / 2 =
      -((lat2 - lat1) * Real.pi / 180 / 2) := by ring
  have h2 : (lon1 - lon2) * Real.pi / 180 / 2 =
      -((lon2 - lon1) * Real.pi / 180 / 2) := by ring
  rw [h1, h2, Real.sin_neg, Real.sin_neg]
  ring

/-- The haversine intermediate `a` vanishes on identical coordinates. -/
lemma hav_a_self (lat lon : ℝ) : hav_a lat lon lat lon = 0 := by
  unfold hav_a radians
  simp

/-- Evaluation of the source's `atan2` on the arguments produced by a zero
`a`. -/
lemma atan2_zero_one : atan2 0 1 = 0 := by
  unfold atan2
  rw [if_pos one_pos]
  norm_num

/-- Numeric evaluation of `haversine` between the equatorial reference
points (0°, 0°) and (0°, 2.634°): the formula collapses to
`R * 2.634 * π / 180`. -/
lemma haversine_equatorial_value :
    haversine 0 0 0 2.634 = 3958.8 * (2 * (2.634 * Real.pi / 180 / 2)) := by
  have hπ := Real.pi_pos
  have htpos : (0 : ℝ) < 2.634 * Real.pi / 180 / 2 := by positivity
  have htlt : 2.634 * Real.pi / 180 / 2 < Real.pi / 2 := by nlinarith
  have htle : 2.634 * Real.pi / 180 / 2 ≤ Real.pi := by nlinarith
  have hsin : 0 ≤ Real.sin (2.634 * Real.pi / 180 / 2) :=
    Real.sin_nonneg_of_nonneg_of_le_pi (le_of_lt htpos) htle
  have hcos : 0 < Real.cos (2.634 * Real.pi / 180 / 2) :=
    Real.cos_pos_of_mem_Ioo ⟨by nlinarith, htlt⟩
  have ha : hav_a 0 0 0 2.634 = Real.sin (2.634 * Real.pi / 180 / 2) ^ 2 := by
    unfold hav_a radians
    norm_num
  have h1a : 1 - Real.sin (2.634 * Real.pi / 180 / 2) ^ 2 =
      Real.cos (2.634 * Real.pi / 180 / 2) ^ 2 := by
    have := Real.sin_sq_add_cos_sq (2.634 * Real.pi / 180 / 2)
    linarith
  rw [haversine, hav_c, ha, h1a, Real.sqrt_sq hsin, Real.sqrt_sq (le_of_lt hcos)]
  rw [atan2, if_pos hcos, ← Real.tan_eq_sin_div_cos,
    Real.arctan_tan (by nlinarith) htlt]

/-- C9: `haversine` is symmetric in its two coordinate arguments, vanishes
on identical coordinates, and between the reference points (0°, 0°) and
(0°, 2.634°) — about 182 miles apart along the equator — it returns 182
miles to within a tenth of a mile. -/
theorem haversine_reference_properties :
    (∀ lat1 lon1 lat2 lon2 : ℝ,
      haversine lat1 lon1 lat2 lon2 = haversine lat2 lon2 lat1 lon1) ∧
    (∀ lat lon : ℝ, haversine lat lon lat lon = 0) ∧
    |haversine 0 0 0 2.634 - 182| < 1 / 10 := by
  refine ⟨?_, ?_, ?_⟩
  · intro lat1 lon1 lat2 lon2
    unfold haversine hav_c
    rw [hav_a_symm]
  · intro lat lon
    unfold haversine hav_c
    rw [hav_a_self]
    norm_num [atan2_zero_one]
  · rw [haversine_equatorial_value, abs_lt]
    have h1 := Real.pi_gt_d6
    have h2 := Real.pi_lt_d6
    constructor <;> nlinarith
